import Mathlib

/-!
Shallow embedding of `src/engagement-dashboard/analyzer.py` (class
`EngagementAnalyzer`), the pre-posting tweet analyzer.  Text is modelled as
`List Char`; scores as `ℚ` (Python floats, with the exact decimal constants
of the source); fallible code returns `Except Unit`.  The regular-expression
pattern sets of the source are modelled by dedicated scanners implementing
Python `re.findall` semantics (leftmost, non-overlapping, alternatives tried
in order, greedy quantifiers) for the fixed patterns of the source.
ASCII character classes model Python's `str.isspace`, `str.isupper`,
and the regex classes `\w`, `\s`, `\d` (all inputs of interest are ASCII).
-/

/-- Python `str.isspace` (ASCII model): the characters matched by `\s`. -/
def pyIsSpace (c : Char) : Bool :=
  c == ' ' || c == '\t' || c == '\n' || c == '\x0B' || c == '\x0C' || c == '\r'

/-- Python `str.isupper` for a single character (ASCII model). -/
def pyIsUpper (c : Char) : Bool :=
  'A' ≤ c && c ≤ 'Z'

/-- Regex `\w` (ASCII model): letters, digits, underscore. -/
def isWordChar (c : Char) : Bool :=
  c.isAlpha || c.isDigit || c == '_'

/-- Case-sensitive: `p` is an initial segment of `t`. -/
def startsL : List Char → List Char → Bool
  | [], _ => true
  | _ :: _, [] => false
  | p :: ps, t :: ts => (p == t) && startsL ps ts

/-- Case-insensitive (re.IGNORECASE): `p` is an initial segment of `t`. -/
def ciStarts : List Char → List Char → Bool
  | [], _ => true
  | _ :: _, [] => false
  | p :: ps, t :: ts => (p.toLower == t.toLower) && ciStarts ps ts

/-- `needle` occurs as a contiguous substring of `hay` (Python `in`). -/
def containsSub (needle : List Char) : List Char → Bool
  | [] => needle.isEmpty
  | c :: cs => startsL needle (c :: cs) || containsSub needle cs

/-- Regex `\b` after a match: next position is end of text or a non-word char. -/
def boundaryAfter : List Char → Bool
  | [] => true
  | c :: _ => !isWordChar c

/-- First alternative (in pattern order) matching case-insensitively at the
head of `t`; returns the matched length.  Models `(w1|w2|...)`. -/
def matchAltNoB (alts : List (List Char)) (t : List Char) : Option Nat :=
  match alts with
  | [] => none
  | a :: rest =>
    if ciStarts a t then some a.length else matchAltNoB rest t

/-- First alternative matching at the head of `t` and followed by a word
boundary; models `(w1|w2|...)\b` (regex backtracking tries alternatives in
order, each with the trailing `\b`). -/
def matchAltWord (alts : List (List Char)) (t : List Char) : Option Nat :=
  match alts with
  | [] => none
  | a :: rest =>
    if ciStarts a t && boundaryAfter (t.drop a.length) then some a.length
    else matchAltWord rest t

/-- Generic `re.findall` scanner for a matcher giving the match length at a
position: leftmost, non-overlapping, advancing by one on failure.  The fuel
argument (structural recursion) is initialized to the text length by
`scanBy`; every step consumes at least one character, so it never runs
out. -/
def scanByF (m : List Char → Option Nat) : Nat → List Char → List (List Char)
  | 0, _ => []
  | _, [] => []
  | fuel + 1, c :: cs =>
    match m (c :: cs) with
    | some (n + 1) => (c :: cs).take (n + 1) :: scanByF m fuel (cs.drop n)
    | _ => scanByF m fuel cs

/-- `re.findall` with a length-returning matcher. -/
def scanBy (m : List Char → Option Nat) (t : List Char) : List (List Char) :=
  scanByF m t.length t

/-- `re.findall` for `\b(w1|...|wk)\b` patterns; `prevW` is the word-char-ness
of the previous character (`\b` before the match requires the previous
character to be a non-word character, since every alternative starts with a
word character).  After a match the previous character is the last character
of the matched alternative, which is always a word character here. -/
def scanWordAltF (alts : List (List Char)) : Nat → Bool → List Char →
    List (List Char)
  | 0, _, _ => []
  | _, _, [] => []
  | fuel + 1, prevW, c :: cs =>
    if prevW then scanWordAltF alts fuel (isWordChar c) cs
    else
      match matchAltWord alts (c :: cs) with
      | some (n + 1) =>
        (c :: cs).take (n + 1) :: scanWordAltF alts fuel true (cs.drop n)
      | _ => scanWordAltF alts fuel (isWordChar c) cs

/-- `re.findall` for `\b(w1|...|wk)\b` starting at the beginning of the text
(no previous character: the position is a word boundary). -/
def scanWordAlt (alts : List (List Char)) (t : List Char) : List (List Char) :=
  scanWordAltF alts t.length false t

/-- Matcher for the two-group patterns `\b(a1|..)\s+(b1|..)`: alternatives of
the first group in order; on a literal match, `\s+` greedily takes the maximal
whitespace run (at least one character; since no second-group alternative
starts with whitespace, backtracking into the run cannot succeed); then the
first matching second-group alternative.  Returns (total length, group1,
group2), groups as the matched original-case slices. -/
def matchSeqAt (alts1 alts2 : List (List Char)) (t : List Char) :
    Option (Nat × List Char × List Char) :=
  match alts1 with
  | [] => none
  | a :: rest =>
    if ciStarts a t then
      let r1 := t.drop a.length
      let ws := (r1.takeWhile pyIsSpace).length
      if ws = 0 then matchSeqAt rest alts2 t
      else
        let r2 := r1.drop ws
        match matchAltNoB alts2 r2 with
        | some n2 => some (a.length + ws + n2, t.take a.length, r2.take n2)
        | none => matchSeqAt rest alts2 t
    else matchSeqAt rest alts2 t

/-- `re.findall` for `\b(a1|..)\s+(b1|..)` (two groups → list of pairs).
All second-group alternatives end in word characters, so after a match the
previous character is a word character. -/
def scanSeqF (alts1 alts2 : List (List Char)) : Nat → Bool → List Char →
    List (List Char × List Char)
  | 0, _, _ => []
  | _, _, [] => []
  | fuel + 1, prevW, c :: cs =>
    if prevW then scanSeqF alts1 alts2 fuel (isWordChar c) cs
    else
      match matchSeqAt alts1 alts2 (c :: cs) with
      | some (n + 1, g1, g2) =>
        (g1, g2) :: scanSeqF alts1 alts2 fuel true (cs.drop n)
      | _ => scanSeqF alts1 alts2 fuel (isWordChar c) cs

/-- `re.findall` for `\b(a1|..)\s+(b1|..)` from the beginning of the text. -/
def scanSeq (alts1 alts2 : List (List Char)) (t : List Char) :
    List (List Char × List Char) :=
  scanSeqF alts1 alts2 t.length false t

/-- Greedy search for `.*(b1|..)` inside `r1` starting the `.*` at offset `q`
counting down: the largest offset at which a second-group alternative
matches wins (greedy `.*`).  Returns (offset, match length). -/
def greedyDown (alts2 : List (List Char)) (r1 : List Char) (q : Nat) :
    Option (Nat × Nat) :=
  match matchAltNoB alts2 (r1.drop q) with
  | some n2 => some (q, n2)
  | none =>
    match q with
    | 0 => none
    | q' + 1 => greedyDown alts2 r1 q'
termination_by q

/-- `.*` cannot cross a newline (no re.DOTALL), so the greedy search starts
at the end of the current line. -/
def greedyAlt2 (alts2 : List (List Char)) (r1 : List Char) : Option (Nat × Nat) :=
  greedyDown alts2 r1 ((r1.takeWhile (fun c => c != '\n')).length)

/-- Matcher for the two-group patterns `(a1|..).*(b1|..)` with greedy `.*`. -/
def matchDotStarAt (alts1 alts2 : List (List Char)) (t : List Char) :
    Option (Nat × List Char × List Char) :=
  match alts1 with
  | [] => none
  | a :: rest =>
    if ciStarts a t then
      let r1 := t.drop a.length
      match greedyAlt2 alts2 r1 with
      | some (q, n2) => some (a.length + q + n2, t.take a.length, (r1.drop q).take n2)
      | none => matchDotStarAt rest alts2 t
    else matchDotStarAt rest alts2 t

/-- Generic `re.findall` scanner returning the pairs of group captures. -/
def scanPairByF (m : List Char → Option (Nat × List Char × List Char)) :
    Nat → List Char → List (List Char × List Char)
  | 0, _ => []
  | _, [] => []
  | fuel + 1, c :: cs =>
    match m (c :: cs) with
    | some (n + 1, g1, g2) => (g1, g2) :: scanPairByF m fuel (cs.drop n)
    | _ => scanPairByF m fuel cs

/-- `re.findall` with a pair-returning matcher. -/
def scanPairBy (m : List Char → Option (Nat × List Char × List Char))
    (t : List Char) : List (List Char × List Char) :=
  scanPairByF m t.length t

/-- Matcher for spam pattern 3, `(make \$\d+|earn money fast|work from home)`:
the first alternative is the literal `make $` followed by one or more digits
(greedy). -/
def matchSpam3At (t : List Char) : Option Nat :=
  if ciStarts ("make $".data) t then
    let d := ((t.drop 6).takeWhile Char.isDigit).length
    if d = 0 then matchAltNoB ["earn money fast".data, "work from home".data] t
    else some (6 + d)
  else matchAltNoB ["earn money fast".data, "work from home".data] t

/-- Matcher for the URL pattern `https?://[^\s]+` (case-sensitive, `s?`
greedy, then a maximal nonempty run of non-whitespace characters). -/
def matchUrlAt (t : List Char) : Option Nat :=
  let scheme :=
    if startsL ("https://".data) t then 8
    else if startsL ("http://".data) t then 7
    else 0
  if scheme = 0 then none
  else
    let body := ((t.drop scheme).takeWhile (fun c => !pyIsSpace c)).length
    if body = 0 then none else some (scheme + body)

/-- Matcher for `@\w+` / `#\w+`: the tag character followed by a maximal
nonempty run of word characters. -/
def matchTagAt (tag : Char) (t : List Char) : Option Nat :=
  match t with
  | [] => none
  | c :: cs =>
    if c == tag then
      let n := (cs.takeWhile isWordChar).length
      if n = 0 then none else some (n + 1)
    else none

/-- Result of a Python `re.findall`: a string for one-group patterns, a pair
for two-group patterns. -/
inductive PyMatch where
  | str : String → PyMatch
  | tup : String → String → PyMatch
deriving DecidableEq, Repr

/-- Python `set(...)` over a list, modelled as first-occurrence
deduplication (the actual iteration order of a CPython set is
hash-dependent but fixed within a process; no property proved here
depends on the order). -/
def pySet [DecidableEq α] (seen : List α) : List α → List α
  | [] => []
  | a :: l => if a ∈ seen then pySet seen l else a :: pySet (a :: seen) l

/-- Python `", ".join(...)` over a set of findall results: raises `TypeError`
(modelled as `Except.error ()`) when any element is a tuple rather than a
string. -/
def pyJoinMatches (l : List PyMatch) : Except Unit String :=
  if l.any (fun m => match m with | .tup _ _ => true | .str _ => false) then
    .error ()
  else
    .ok (String.intercalate ", " (l.map (fun m =>
      match m with | .str s => s | .tup a _ => a)))

/-! ### The fixed pattern sets of `EngagementAnalyzer` (all compiled with
`re.IGNORECASE` by `__init__`). -/

/-- TOXIC_PATTERNS[0]: `\b(hate|stupid|idiot|dumb|trash|garbage|worst)\b`. -/
def TOX1 : List (List Char) :=
  ["hate", "stupid", "idiot", "dumb", "trash", "garbage", "worst"].map String.data

/-- TOXIC_PATTERNS[1], group 1: `kill|die|death|hurt`. -/
def TOX2a : List (List Char) := ["kill", "die", "death", "hurt"].map String.data

/-- TOXIC_PATTERNS[1], group 2: `you|yourself|them`. -/
def TOX2b : List (List Char) := ["you", "yourself", "them"].map String.data

/-- TOXIC_PATTERNS[2], group 1: `f\*ck|sh\*t|damn|hell`. -/
def TOX3a : List (List Char) := ["f*ck", "sh*t", "damn", "hell"].map String.data

/-- TOXIC_PATTERNS[2], group 2: `you|off`. -/
def TOX3b : List (List Char) := ["you", "off"].map String.data

/-- TOXIC_PATTERNS[3]: `\b(loser|pathetic|disgusting|horrible)\b`. -/
def TOX4 : List (List Char) :=
  ["loser", "pathetic", "disgusting", "horrible"].map String.data

/-- SPAM_PATTERNS[0]: `(click here|follow for follow|f4f|l4l)`. -/
def SPAM1 : List (List Char) :=
  ["click here", "follow for follow", "f4f", "l4l"].map String.data

/-- SPAM_PATTERNS[1]: `(buy now|limited time|act now|offer expires)`. -/
def SPAM2 : List (List Char) :=
  ["buy now", "limited time", "act now", "offer expires"].map String.data

/-- SPAM_PATTERNS[3], group 1: `crypto|bitcoin|nft`. -/
def SPAM4a : List (List Char) := ["crypto", "bitcoin", "nft"].map String.data

/-- SPAM_PATTERNS[3], group 2: `guaranteed|profit|returns`. -/
def SPAM4b : List (List Char) := ["guaranteed", "profit", "returns"].map String.data

/-- SPAM_PATTERNS[4], group 1: `dm for|check bio|link in bio`. -/
def SPAM5a : List (List Char) := ["dm for", "check bio", "link in bio"].map String.data

/-- SPAM_PATTERNS[4], group 2: `\$|money|cash|paid`. -/
def SPAM5b : List (List Char) := ["$", "money", "cash", "paid"].map String.data

/-- NSFW_PATTERNS[0]: `\b(sex|porn|xxx|nsfw|nude|naked)\b`. -/
def NSFW1 : List (List Char) :=
  ["sex", "porn", "xxx", "nsfw", "nude", "naked"].map String.data

/-- NSFW_PATTERNS[1]: `\b(sexual|explicit|adult content)\b`. -/
def NSFW2 : List (List Char) :=
  ["sexual", "explicit", "adult content"].map String.data

/-- All toxicity findall results, in pattern order then position order, as
`_analyze_safety` accumulates them (patterns 1 and 3 have two groups, so
their results are tuples). -/
def toxicMatches (t : List Char) : List PyMatch :=
  (scanWordAlt TOX1 t).map (fun m => PyMatch.str (String.mk m))
    ++ (scanSeq TOX2a TOX2b t).map (fun p => PyMatch.tup (String.mk p.1) (String.mk p.2))
    ++ (scanSeq TOX3a TOX3b t).map (fun p => PyMatch.tup (String.mk p.1) (String.mk p.2))
    ++ (scanWordAlt TOX4 t).map (fun m => PyMatch.str (String.mk m))

/-- All spam findall results, in pattern order then position order. -/
def spamMatches (t : List Char) : List PyMatch :=
  (scanBy (matchAltNoB SPAM1) t).map (fun m => PyMatch.str (String.mk m))
    ++ (scanBy (matchAltNoB SPAM2) t).map (fun m => PyMatch.str (String.mk m))
    ++ (scanBy matchSpam3At t).map (fun m => PyMatch.str (String.mk m))
    ++ (scanPairBy (matchDotStarAt SPAM4a SPAM4b) t).map
        (fun p => PyMatch.tup (String.mk p.1) (String.mk p.2))
    ++ (scanPairBy (matchDotStarAt SPAM5a SPAM5b) t).map
        (fun p => PyMatch.tup (String.mk p.1) (String.mk p.2))

/-- All NSFW findall results (both patterns have a single group, so the
results are plain strings). -/
def nsfwMatches (t : List Char) : List String :=
  ((scanWordAlt NSFW1 t) ++ (scanWordAlt NSFW2 t)).map String.mk

/-! ### URL classification (`urlparse(url).netloc.lower()` plus
`SUSPICIOUS_DOMAINS` substring check, `try`/`except` absorbed). -/

/-- `SUSPICIOUS_DOMAINS` of the source. -/
def SUSPICIOUS_DOMAINS : List (List Char) :=
  ["bit.ly", "tinyurl.com", "shorturl.at", "click", "offer", "promo", "deals"].map
    String.data

/-- `urllib.parse.urlparse(url).netloc` for the URLs this program extracts
(they always begin with `http://` or `https://` by construction of the URL
regex): the text after the scheme up to the first `/`, `?` or `#`.  CPython's
`urlsplit` raises `ValueError` ("Invalid IPv6 URL") when the netloc contains
an unbalanced `[` or `]`; that failure is modelled as `none`. -/
def pyUrlNetloc (u : List Char) : Option (List Char) :=
  let rest :=
    if startsL ("https://".data) u then u.drop 8
    else if startsL ("http://".data) u then u.drop 7
    else u
  let netloc := rest.takeWhile (fun c => c != '/' && c != '?' && c != '#')
  if (netloc.contains '[' && !netloc.contains ']')
      || (netloc.contains ']' && !netloc.contains '[') then none
  else some netloc

/-- The body of the suspicious-URL loop of `_extract_features`: the parsed
domain, lower-cased, contains one of `SUSPICIOUS_DOMAINS` as a substring; a
URL whose domain parse raises is itself suspicious (the `except` branch). -/
def isSuspiciousUrl (u : String) : Bool :=
  match pyUrlNetloc u.data with
  | none => true
  | some netloc =>
    let domain := netloc.map Char.toLower
    SUSPICIOUS_DOMAINS.any (fun s => containsSub s domain)

/-! ### Features (`_extract_features`). -/

/-- The feature dictionary built by `_extract_features`.  The key
`is_from_followed_account` is never put into the dictionary by the source;
`_calculate_overall_score` reads it with `.get(..., False)`, so it is
modelled as a field that `extractFeatures` always sets to `false`. -/
structure Features where
  text_length : Nat
  char_count : Nat
  caps_ratio : ℚ
  upper_count : Nat
  whitespace_count : Nat
  newline_count : Nat
  has_question : Bool
  question_count : Nat
  urls : List String
  url_count : Nat
  suspicious_urls : List String
  mentions : List String
  mention_count : Nat
  hashtags : List String
  hashtag_count : Nat
  has_media : Bool
  media_type : Option String
  is_reply : Bool
  is_from_followed_account : Bool
deriving DecidableEq, Repr

/-- `_extract_features`. -/
def extractFeatures (text : List Char) (has_media : Bool)
    (media_type : Option String) (is_reply : Bool) : Features :=
  let text_length := text.length
  let char_count := (text.filter (fun c => !pyIsSpace c)).length
  let upper_count := (text.filter pyIsUpper).length
  let caps_ratio : ℚ := if char_count > 0 then (upper_count : ℚ) / (char_count : ℚ) else 0
  let whitespace_count := (text.filter pyIsSpace).length
  let newline_count := text.count '\n'
  let question_marks := text.count '?'
  let has_question := text.contains '?'
  let urls := (scanBy matchUrlAt text).map String.mk
  let mentions := (scanBy (matchTagAt '@') text).map String.mk
  let hashtags := (scanBy (matchTagAt '#') text).map String.mk
  let suspicious_urls := urls.filter isSuspiciousUrl
  { text_length := text_length
    char_count := char_count
    caps_ratio := caps_ratio
    upper_count := upper_count
    whitespace_count := whitespace_count
    newline_count := newline_count
    has_question := has_question
    question_count := question_marks
    urls := urls
    url_count := urls.length
    suspicious_urls := suspicious_urls
    mentions := mentions
    mention_count := mentions.length
    hashtags := hashtags
    hashtag_count := hashtags.length
    has_media := has_media
    media_type := media_type
    is_reply := is_reply
    is_from_followed_account := false }

/-! ### Scoring records and the three sub-scorers. -/

/-- A penalty dictionary as built by `_analyze_safety` / `_analyze_quality`. -/
structure Penalty where
  type : String
  severity : String
  impact : String
  description : String
  details : String
deriving DecidableEq, Repr

/-- A boost dictionary as built by `_analyze_engagement_potential`. -/
structure Boost where
  type : String
  impact : String
  description : String
  details : String
deriving DecidableEq, Repr

/-- Optimal ranges of the source (`OPTIMAL_LENGTH_MIN`, `OPTIMAL_LENGTH_MAX`,
`SWEET_SPOT_MIN`, `SWEET_SPOT_MAX`). -/
def OPTIMAL_LENGTH_MIN : Nat := 50

def OPTIMAL_LENGTH_MAX : Nat := 280

def SWEET_SPOT_MIN : Nat := 100

def SWEET_SPOT_MAX : Nat := 200

/-- The source's `MAX_CAPS_RATIO` (0.3; renamed here). -/
def maxCapsFrac : ℚ := 0.3

/-- The source's `RECOMMENDED_CAPS_RATIO` (0.1; renamed here). -/
def recommendedCapsFrac : ℚ := 0.1

/-- Nonnegative rational floor: `num.toNat / den` (exact floor for the
nonnegative values produced by the engine). -/
def qfl (q : ℚ) : Nat := q.num.toNat / q.den

/-- Round half to even, for nonnegative rationals (Python `round`'s tie rule
on the ideal value). -/
def rheNN (q : ℚ) : Nat :=
  if q - (qfl q : ℚ) < 1 / 2 then qfl q
  else if 1 / 2 < q - (qfl q : ℚ) then qfl q + 1
  else if qfl q % 2 = 0 then qfl q else qfl q + 1

/-- Python `round(x, 1)` on the nonnegative scores of the engine. -/
def roundTo1 (q : ℚ) : ℚ := (rheNN (q * 10) : ℚ) / 10

/-- Python `f'{x:.1%}'` (percent with one decimal) on a nonnegative ratio. -/
def fmtPercent1 (q : ℚ) : String :=
  let n := rheNN (q * 1000)
  toString (n / 10) ++ "." ++ toString (n % 10) ++ "%"

/-- Python `f'{x:.0%}'` on a nonnegative ratio. -/
def fmtPercent0 (q : ℚ) : String :=
  toString (rheNN (q * 100)) ++ "%"

/-- The `HIGH_TOXICITY` penalty record (details string built by the caller:
it is the fallible part). -/
def toxicRecord (nMatches pen : Nat) (joined : String) : Penalty :=
  { type := "HIGH_TOXICITY"
    severity := if pen > 40 then "CRITICAL" else "HIGH"
    impact := "-" ++ toString pen ++ "%"
    description := "Toxic language detected: " ++ toString nMatches ++ " pattern(s)"
    details := "Matched: " ++ joined ++ "..." }

/-- The toxicity warning string. -/
def toxicWarning : String :=
  "🚨 CRITICAL: Toxic language detected - may be filtered or downranked to \"Abusive Quality\" section"

/-- The `HIGH_SPAMMY_CONTENT` penalty record: its details join first maps
tuples to their first component (`m[0] if isinstance(m, tuple) else m`), so
it never raises. -/
def spamRecord (spM : List PyMatch) : Penalty :=
  let pen := min (spM.length * 20) 70
  let firsts := (spM.take 3).map (fun m =>
    match m with | .str s => s | .tup a _ => a)
  { type := "HIGH_SPAMMY_CONTENT"
    severity := if pen > 50 then "CRITICAL" else "HIGH"
    impact := "-" ++ toString pen ++ "%"
    description := "Spam patterns detected: " ++ toString spM.length ++ " indicator(s)"
    details := "Matched: " ++ String.intercalate ", " (pySet [] firsts) ++ "..." }

/-- The spam warning string. -/
def spamWarning : String :=
  "🚨 CRITICAL: Spam indicators detected - may trigger GrokSpamFilter (hard filter)"

/-- The `NSFW_CONTENT` penalty record (single-group patterns: the matches
are plain strings, so its join never raises). -/
def nsfwRecord (nsM : List String) : Penalty :=
  { type := "NSFW_CONTENT"
    severity := "CRITICAL"
    impact := "-50%"
    description := "NSFW content detected"
    details := "Matched: " ++ String.intercalate ", " (pySet [] (nsM.take 3)) ++ "..." }

/-- The NSFW warning string. -/
def nsfwWarning : String :=
  "🚨 CRITICAL: NSFW content detected - may trigger GrokNsfwFilter (hard filter)"

/-- The `UNTRUSTED_URL` penalty record. -/
def urlRecord (f : Features) : Penalty :=
  { type := "UNTRUSTED_URL"
    severity := "HIGH"
    impact := "-40%"
    description := "Suspicious URLs detected: " ++ toString f.suspicious_urls.length
    details := "URLs: " ++ String.intercalate ", " (f.suspicious_urls.take 2) }

/-- The suspicious-URL warning string. -/
def urlWarning : String :=
  "⚠️  HIGH: Suspicious URLs may trigger \"Abusive Quality\" downranking"

/-- The spam / NSFW / suspicious-URL part of `_analyze_safety` (everything
after the toxicity block, which is the only part that can raise).  Each
check subtracts its penalty and appends its record and warning exactly as
the sequential `score -= ...` / `append` statements of the source; the final
score is clamped with `max(score, 0)`. -/
def safetyRest (text : List Char) (f : Features) (s1 : ℚ) (w1 : List String)
    (p1 : List Penalty) : ℚ × List String × List Penalty :=
  let spM := spamMatches text
  let nsM := nsfwMatches text
  let spamPen : Nat := if spM.isEmpty then 0 else min (spM.length * 20) 70
  let nsfwPen : Nat := if nsM.isEmpty then 0 else 50
  let urlPen : Nat := if f.suspicious_urls.isEmpty then 0 else 40
  let score : ℚ := s1 - (spamPen : ℚ) - (nsfwPen : ℚ) - (urlPen : ℚ)
  let warnings := w1
    ++ (if spM.isEmpty then [] else [spamWarning])
    ++ (if nsM.isEmpty then [] else [nsfwWarning])
    ++ (if f.suspicious_urls.isEmpty then [] else [urlWarning])
  let penalties := p1
    ++ (if spM.isEmpty then [] else [spamRecord spM])
    ++ (if nsM.isEmpty then [] else [nsfwRecord nsM])
    ++ (if f.suspicious_urls.isEmpty then [] else [urlRecord f])
  (max score 0, warnings, penalties)

/-- `_analyze_safety`.  The toxicity block builds its `details` string with
`", ".join(set(toxic_matches[:3]))`; when one of the first three matches is
a tuple (two-group toxic patterns) the join raises `TypeError`, modelled by
`Except.error ()`. -/
def analyzeSafety (text : List Char) (f : Features) :
    Except Unit (ℚ × List String × List Penalty) :=
  if (toxicMatches text).isEmpty then .ok (safetyRest text f 100 [] [])
  else
    match pyJoinMatches (pySet [] ((toxicMatches text).take 3)) with
    | .error e => .error e
    | .ok joined =>
      .ok (safetyRest text f
        ((100 : ℚ) - ((min ((toxicMatches text).length * 15) 60 : ℕ) : ℚ))
        [toxicWarning]
        [toxicRecord (toxicMatches text).length
          (min ((toxicMatches text).length * 15) 60) joined])

/-- `_analyze_quality`.  The four checks subtract their penalties in
sequence (the two length tiers and the two caps tiers are `elif` ladders);
the final score is clamped with `max(score, 0)`. -/
def analyzeQuality (f : Features) : ℚ × List String × List Penalty :=
  let length := f.text_length
  let cr := f.caps_ratio
  let lengthPen : Nat := if length < 10 then 30
    else if length < OPTIMAL_LENGTH_MIN then 10 else 0
  let capsPen : Nat := if cr > 0.5 then 40 else if cr > maxCapsFrac then 15 else 0
  let newlinePen : Nat := if f.newline_count > 10 then 20 else 0
  let hashtagPen : Nat := if f.hashtag_count > 5 then 25 else 0
  let score : ℚ := 100 - (lengthPen : ℚ) - (capsPen : ℚ) - (newlinePen : ℚ)
    - (hashtagPen : ℚ)
  let warnings :=
    (if length < 10 then
      ["⚠️  Tweet too short (" ++ toString length ++ " chars) - low engagement expected"]
     else [])
    ++ (if cr > 0.5 then
      ["⚠️  HIGH: Excessive caps (" ++ fmtPercent0 cr ++ ") - looks like spam"]
     else if cr > maxCapsFrac then
      ["⚠️  High caps ratio (" ++ fmtPercent0 cr ++ ") - reduce for better quality"]
     else [])
    ++ (if f.newline_count > 10 then
      ["⚠️  Too many newlines (" ++ toString f.newline_count ++ ") - may appear spammy"]
     else [])
    ++ (if f.hashtag_count > 5 then
      ["⚠️  Too many hashtags (" ++ toString f.hashtag_count ++ ") - use 1-3 max"]
     else [])
  let penalties :=
    (if length < 10 then
      [{ type := "TOO_SHORT", severity := "MEDIUM", impact := "-30%",
         description := "Tweet too short (" ++ toString length ++ " chars)",
         details := "Very short tweets get less engagement" : Penalty }]
     else if length < OPTIMAL_LENGTH_MIN then
      [{ type := "BELOW_OPTIMAL", severity := "LOW", impact := "-10%",
         description := "Below optimal length (" ++ toString length ++ " chars)",
         details := "Aim for 50-280 chars" : Penalty }]
     else [])
    ++ (if cr > 0.5 then
      [{ type := "EXCESSIVE_CAPS", severity := "HIGH", impact := "-40%",
         description := "Excessive capitalization (" ++ fmtPercent1 cr ++ ")",
         details := "May be flagged as spam or low quality" : Penalty }]
     else if cr > maxCapsFrac then
      [{ type := "HIGH_CAPS", severity := "MEDIUM", impact := "-15%",
         description := "High capitalization (" ++ fmtPercent1 cr ++ ")",
         details := "Reduces perceived quality" : Penalty }]
     else [])
    ++ (if f.newline_count > 10 then
      [{ type := "EXCESSIVE_NEWLINES", severity := "MEDIUM", impact := "-20%",
         description := "Excessive newlines (" ++ toString f.newline_count ++ ")",
         details := "May be flagged as spam" : Penalty }]
     else [])
    ++ (if f.hashtag_count > 5 then
      [{ type := "HASHTAG_SPAM", severity := "MEDIUM", impact := "-25%",
         description := "Too many hashtags (" ++ toString f.hashtag_count ++ ")",
         details := "Reduces engagement, looks spammy" : Penalty }]
     else [])
  (max score 0, warnings, penalties)

/-- The media boost record selected by `media_type` (the `else` arm covers
any other or unspecified type). -/
def mediaBoostRec (mt : Option String) : Boost :=
  if mt = some "video" then
    { type := "VIDEO_MEDIA", impact := "+30%", description := "Video content",
      details := "Video gets highest engagement" }
  else if mt = some "gif" then
    { type := "GIF_MEDIA", impact := "+20%", description := "GIF content",
      details := "GIFs boost engagement" }
  else if mt = some "image" then
    { type := "IMAGE_MEDIA", impact := "+25%", description := "Image content",
      details := "Images significantly boost engagement" }
  else
    { type := "MEDIA", impact := "+20%", description := "Media present",
      details := "Media content boosts engagement" }

/-- `_analyze_engagement_potential`: baseline 50, additive boosts, clamped
with `min(score, 100)`. -/
def analyzeEngagement (f : Features) : ℚ × List Boost :=
  let questionBoost : Nat := if f.has_question then 15 else 0
  let mediaBoost : Nat := if f.has_media then
      (if f.media_type = some "video" then 30
       else if f.media_type = some "gif" then 20
       else if f.media_type = some "image" then 25
       else 20)
    else 0
  let lengthBoost : Nat :=
    if SWEET_SPOT_MIN ≤ f.text_length ∧ f.text_length ≤ SWEET_SPOT_MAX then 10 else 0
  let capsBoost : Nat := if f.caps_ratio ≤ recommendedCapsFrac then 5 else 0
  let score : ℚ := 50 + (questionBoost : ℚ) + (mediaBoost : ℚ) + (lengthBoost : ℚ)
    + (capsBoost : ℚ)
  let boosts :=
    (if f.has_question then
      [{ type := "HAS_QUESTION", impact := "+15%", description := "Question detected",
         details := "Questions increase reply likelihood" : Boost }]
     else [])
    ++ (if f.has_media then [mediaBoostRec f.media_type] else [])
    ++ (if SWEET_SPOT_MIN ≤ f.text_length ∧ f.text_length ≤ SWEET_SPOT_MAX then
      [{ type := "OPTIMAL_LENGTH", impact := "+10%",
         description := "Optimal length (" ++ toString f.text_length ++ " chars)",
         details := "Sweet spot: 100-200 chars" : Boost }]
     else [])
    ++ (if f.caps_ratio ≤ recommendedCapsFrac then
      [{ type := "GOOD_FORMATTING", impact := "+5%", description := "Clean formatting",
         details := "Appropriate capitalization" : Boost }]
     else [])
  (min score 100, boosts)

/-- `_calculate_overall_score`: short-circuit `safety * 0.5` when safety is
below 50 (the ×0.85 adjustment is *not* applied there: the `return` comes
first); otherwise the 0.4/0.3/0.3 weighted average, multiplied by 0.85
unless `is_from_followed_account` is set (which `extractFeatures` never
sets). -/
def calculateOverallScore (safety_score quality_score engagement_score : ℚ)
    (f : Features) : ℚ :=
  if safety_score < 50 then safety_score * 0.5
  else
    let overall := safety_score * 0.4 + quality_score * 0.3 + engagement_score * 0.3
    if f.is_from_followed_account then overall else overall * 0.85

/-- `_determine_risk_level` (the `safety_score` parameter is unused in the
source as well). -/
def determineRiskLevel (overall_score : ℚ) (safety_score : ℚ)
    (safety_penalties : List Penalty) : String :=
  if safety_penalties.any (fun p => p.severity == "CRITICAL") then "CRITICAL"
  else if overall_score < 40 then "HIGH"
  else if overall_score < 60 then "MEDIUM"
  else "LOW"

/-- `_generate_recommendations` (its quality/engagement score and penalty
parameters are unused in the source as well). -/
def generateRecommendations (f : Features) (safety_score quality_score
    engagement_score : ℚ) (safety_penalties quality_penalties : List Penalty) :
    List String :=
  let recs :=
    (if safety_score < 70 then
      ["🚨 CRITICAL: Remove toxic/spam/NSFW language to avoid filters"] else [])
    ++ (if f.suspicious_urls.isEmpty then [] else
      ["🔗 Replace shortened/suspicious URLs with direct links"])
    ++ (if f.text_length < OPTIMAL_LENGTH_MIN then
      ["📝 Expand your tweet to 50+ characters for better engagement"] else [])
    ++ (if f.caps_ratio > maxCapsFrac then
      ["🔤 Reduce CAPITALIZATION - use sentence case instead"] else [])
    ++ (if f.hashtag_count > 3 then
      ["#️⃣ Reduce hashtags to 1-3 (currently " ++ toString f.hashtag_count ++ ")"]
     else [])
    ++ (if f.newline_count > 5 then ["📄 Reduce excessive line breaks"] else [])
    ++ (if !f.has_question && f.text_length > 50 then
      ["❓ Consider adding a question to boost replies"] else [])
    ++ (if f.has_media then [] else
      ["📸 Add an image or video for +20-30% engagement boost"])
    ++ (if f.text_length < SWEET_SPOT_MIN ∧ f.text_length ≥ OPTIMAL_LENGTH_MIN then
      ["💡 Sweet spot is 100-200 chars for maximum engagement"] else [])
  if recs.isEmpty then ["✅ Looks good! This tweet should perform well."] else recs

/-- The result object returned by `analyze`. -/
structure AnalysisResult where
  overall_score : ℚ
  risk_level : String
  safety_score : ℚ
  quality_score : ℚ
  engagement_potential : ℚ
  penalties : List Penalty
  boosts : List Boost
  warnings : List String
  recommendations : List String
  feature_breakdown : Features
deriving DecidableEq, Repr

/-- The part of `analyze` after the safety pass succeeded (quality,
engagement, aggregation, risk, recommendations, result construction —
sub-scores stored rounded to one decimal, risk computed on the unrounded
overall score, exactly as in the source). -/
def buildResult (features : Features) (safety_score : ℚ)
    (safety_warnings : List String) (safety_penalties : List Penalty) :
    AnalysisResult :=
  let q := analyzeQuality features
  let quality_score := q.1
  let quality_warnings := q.2.1
  let quality_penalties := q.2.2
  let e := analyzeEngagement features
  let engagement_score := e.1
  let engagement_boosts := e.2
  let overall_score := calculateOverallScore safety_score quality_score
    engagement_score features
  let risk_level := determineRiskLevel overall_score safety_score safety_penalties
  let all_warnings := safety_warnings ++ quality_warnings
  let recommendations := generateRecommendations features safety_score
    quality_score engagement_score safety_penalties quality_penalties
  let all_penalties := safety_penalties ++ quality_penalties
  { overall_score := roundTo1 overall_score
    risk_level := risk_level
    safety_score := roundTo1 safety_score
    quality_score := roundTo1 quality_score
    engagement_potential := roundTo1 engagement_score
    penalties := all_penalties
    boosts := engagement_boosts
    warnings := all_warnings
    recommendations := recommendations
    feature_breakdown := features }

/-- `EngagementAnalyzer.analyze`, the single entry point.  A `TypeError`
raised inside `_analyze_safety` propagates out (modelled by
`Except.error`). -/
def analyze (text : List Char) (has_media : Bool := false)
    (media_type : Option String := none) (is_reply : Bool := false) :
    Except Unit AnalysisResult :=
  let features := extractFeatures text has_media media_type is_reply
  match analyzeSafety text features with
  | .error e => .error e
  | .ok s => .ok (buildResult features s.1 s.2.1 s.2.2)

deriving instance DecidableEq for Except

set_option maxRecDepth 1000000

/-- Projection of an `AnalysisResult` onto everything except the
`feature_breakdown` field. -/
def resultCore (r : AnalysisResult) :
    ℚ × String × ℚ × ℚ × ℚ × List Penalty × List Boost × List String × List String :=
  (r.overall_score, r.risk_level, r.safety_score, r.quality_score,
   r.engagement_potential, r.penalties, r.boosts, r.warnings, r.recommendations)

/-! ### Arithmetic facts about the floor / round-half-even model. -/

theorem qfl_le {q : ℚ} (hq : 0 ≤ q) : (qfl q : ℚ) ≤ q := by
  have hden : (0 : ℚ) < (q.den : ℚ) := by exact_mod_cast q.pos
  have hnum : (0 : ℤ) ≤ q.num := Rat.num_nonneg.mpr hq
  have hq' : ((q.num.toNat : ℚ)) / (q.den : ℚ) = q := by
    have hcast : ((q.num.toNat : ℚ)) = ((q.num : ℤ) : ℚ) := by
      exact_mod_cast Int.toNat_of_nonneg hnum
    rw [hcast]
    exact Rat.num_div_den q
  have h1 : (qfl q) * q.den ≤ q.num.toNat := Nat.div_mul_le_self _ _
  have h2 : ((qfl q : ℚ)) * (q.den : ℚ) ≤ (q.num.toNat : ℚ) := by exact_mod_cast h1
  calc (qfl q : ℚ) = (qfl q : ℚ) * (q.den : ℚ) / (q.den : ℚ) := by field_simp
    _ ≤ (q.num.toNat : ℚ) / (q.den : ℚ) := by
        exact (div_le_div_right hden).mpr h2
    _ = q := hq'

theorem lt_qfl_add_one {q : ℚ} (hq : 0 ≤ q) : q < (qfl q : ℚ) + 1 := by
  have hden : (0 : ℚ) < (q.den : ℚ) := by exact_mod_cast q.pos
  have hnum : (0 : ℤ) ≤ q.num := Rat.num_nonneg.mpr hq
  have hq' : ((q.num.toNat : ℚ)) / (q.den : ℚ) = q := by
    have hcast : ((q.num.toNat : ℚ)) = ((q.num : ℤ) : ℚ) := by
      exact_mod_cast Int.toNat_of_nonneg hnum
    rw [hcast]
    exact Rat.num_div_den q
  have h1 : q.num.toNat < (qfl q + 1) * q.den := by
    have e := Nat.div_add_mod q.num.toNat q.den
    have hm : q.num.toNat % q.den < q.den := Nat.mod_lt _ q.pos
    have hql : qfl q = q.num.toNat / q.den := rfl
    calc q.num.toNat = q.den * (q.num.toNat / q.den) + q.num.toNat % q.den := e.symm
      _ < q.den * (q.num.toNat / q.den) + q.den := by omega
      _ = (q.num.toNat / q.den + 1) * q.den := by ring
      _ = (qfl q + 1) * q.den := by rw [hql]
  have h2 : ((q.num.toNat : ℚ)) / (q.den : ℚ) < (qfl q : ℚ) + 1 := by
    rw [div_lt_iff hden]
    exact_mod_cast h1
  rw [hq'] at h2
  exact h2

theorem qfl_natCast (n : ℕ) : qfl (n : ℚ) = n := by
  simp [qfl, Rat.num_natCast, Rat.den_natCast]

theorem rheNN_natCast (n : ℕ) : rheNN (n : ℚ) = n := by
  rw [rheNN, qfl_natCast]
  norm_num

theorem rheNN_le_natCast {q : ℚ} {n : ℕ} (hq : 0 ≤ q) (h : q ≤ (n : ℚ)) :
    rheNN q ≤ n := by
  have hfl : qfl q ≤ n := by
    have : (qfl q : ℚ) ≤ (n : ℚ) := le_trans (qfl_le hq) h
    exact_mod_cast this
  rw [rheNN]
  split
  · exact hfl
  · rename_i hlt
    push_neg at hlt
    have hq2 : (qfl q : ℚ) + 1 / 2 ≤ q := by linarith
    have hstrict : (qfl q : ℚ) < (n : ℚ) := by linarith
    have hfl' : qfl q < n := by exact_mod_cast hstrict
    split
    · omega
    · split <;> omega

theorem roundTo1_natCast (n : ℕ) : roundTo1 (n : ℚ) = (n : ℚ) := by
  have h : (n : ℚ) * 10 = ((n * 10 : ℕ) : ℚ) := by push_cast; ring
  rw [roundTo1, h, rheNN_natCast]
  push_cast
  field_simp

theorem roundTo1_half_natCast (n : ℕ) : roundTo1 ((n : ℚ) / 2) = (n : ℚ) / 2 := by
  have h : (n : ℚ) / 2 * 10 = ((n * 5 : ℕ) : ℚ) := by push_cast; ring
  rw [roundTo1, h, rheNN_natCast]
  push_cast
  field_simp
  ring

theorem roundTo1_nonneg (q : ℚ) : 0 ≤ roundTo1 q := by
  rw [roundTo1]
  positivity

theorem roundTo1_le_natCast {q : ℚ} {n : ℕ} (hq : 0 ≤ q) (h : q ≤ (n : ℚ)) :
    roundTo1 q ≤ (n : ℚ) := by
  have h10 : q * 10 ≤ ((n * 10 : ℕ) : ℚ) := by push_cast; linarith
  have h0 : 0 ≤ q * 10 := by linarith
  have hle := rheNN_le_natCast h0 h10
  rw [roundTo1, div_le_iff (by norm_num : (0 : ℚ) < 10)]
  calc (rheNN (q * 10) : ℚ) ≤ ((n * 10 : ℕ) : ℚ) := by exact_mod_cast hle
    _ = (n : ℚ) * 10 := by push_cast; ring

/-! ### Shape facts about the three sub-scorers. -/

/-- A clamped `100 - penalties` sum is a natural number at most 100. -/
theorem clampSub_natShape (a b c d : ℕ) :
    ∃ n : ℕ, max ((100 : ℚ) - (a : ℚ) - (b : ℚ) - (c : ℚ) - (d : ℚ)) 0 = (n : ℚ) ∧
      n ≤ 100 := by
  by_cases hk : a + b + c + d ≤ 100
  · refine ⟨100 - (a + b + c + d), ?_, by omega⟩
    have hcast : ((100 - (a + b + c + d) : ℕ) : ℚ)
        = (100 : ℚ) - (a : ℚ) - (b : ℚ) - (c : ℚ) - (d : ℚ) := by
      have hsub : ((100 - (a + b + c + d) : ℕ) : ℚ)
          = (100 : ℚ) - ((a + b + c + d : ℕ) : ℚ) := Nat.cast_sub hk
      push_cast at hsub
      linarith
    rw [hcast]
    apply max_eq_left
    rw [← hcast]
    positivity
  · refine ⟨0, ?_, by omega⟩
    push_neg at hk
    have : (100 : ℚ) - (a : ℚ) - (b : ℚ) - (c : ℚ) - (d : ℚ) ≤ 0 := by
      have : (100 : ℚ) < (a : ℚ) + (b : ℚ) + (c : ℚ) + (d : ℚ) := by
        exact_mod_cast hk
      linarith
    simp [max_eq_right this]

/-- A clamped `50 + boosts` sum is a natural number between 50 and 100. -/
theorem clampAdd_natShape (a b c d : ℕ) :
    ∃ n : ℕ, min ((50 : ℚ) + (a : ℚ) + (b : ℚ) + (c : ℚ) + (d : ℚ)) 100 = (n : ℚ) ∧
      50 ≤ n ∧ n ≤ 100 := by
  by_cases hk : 50 + a + b + c + d ≤ 100
  · refine ⟨50 + a + b + c + d, ?_, by omega, by omega⟩
    have hcast : ((50 + a + b + c + d : ℕ) : ℚ)
        = (50 : ℚ) + (a : ℚ) + (b : ℚ) + (c : ℚ) + (d : ℚ) := by push_cast; ring
    rw [← hcast]
    apply min_eq_left
    exact_mod_cast hk
  · refine ⟨100, ?_, by omega, by omega⟩
    push_neg at hk
    apply min_eq_right
    have : (100 : ℚ) < (50 : ℚ) + (a : ℚ) + (b : ℚ) + (c : ℚ) + (d : ℚ) := by
      exact_mod_cast hk
    linarith

/-- The safety tail always returns a clamped subtraction from `s1`. -/
theorem safetyRest_score (text : List Char) (f : Features) (s1 : ℚ)
    (w1 : List String) (p1 : List Penalty) :
    ∃ b c d : ℕ, (safetyRest text f s1 w1 p1).1 = max (s1 - (b : ℚ) - (c : ℚ) - (d : ℚ)) 0 :=
  ⟨_, _, _, rfl⟩

/-- When `_analyze_safety` returns, its score is a natural number at most
100 (a clamped subtraction of natural penalties from 100). -/
theorem analyzeSafety_score_nat {text : List Char} {f : Features}
    {out : ℚ × List String × List Penalty}
    (h : analyzeSafety text f = .ok out) :
    ∃ n : ℕ, out.1 = (n : ℚ) ∧ n ≤ 100 := by
  rw [analyzeSafety] at h
  split at h
  · obtain ⟨b, c, d, hshape⟩ := safetyRest_score text f 100 [] []
    obtain ⟨n, hn, hn100⟩ := clampSub_natShape 0 b c d
    refine ⟨n, ?_, hn100⟩
    injection h with h'
    rw [← h', hshape, ← hn]
    norm_num
  · split at h
    · exact absurd h (by simp)
    · rename_i joined heq
      injection h with h'
      obtain ⟨b, c, d, hshape⟩ := safetyRest_score text f
        ((100 : ℚ) - ((min ((toxicMatches text).length * 15) 60 : ℕ) : ℚ))
        [toxicWarning]
        [toxicRecord (toxicMatches text).length
          (min ((toxicMatches text).length * 15) 60) joined]
      obtain ⟨n, hn, hn100⟩ :=
        clampSub_natShape (min ((toxicMatches text).length * 15) 60) b c d
      refine ⟨n, ?_, hn100⟩
      rw [← h', hshape, ← hn]

/-- The quality score is a natural number at most 100. -/
theorem analyzeQuality_score_nat (f : Features) :
    ∃ n : ℕ, (analyzeQuality f).1 = (n : ℚ) ∧ n ≤ 100 := by
  obtain ⟨b, c, d, e, hshape⟩ :
      ∃ b c d e : ℕ, (analyzeQuality f).1
        = max ((100 : ℚ) - (b : ℚ) - (c : ℚ) - (d : ℚ) - (e : ℚ)) 0 :=
    ⟨_, _, _, _, rfl⟩
  obtain ⟨n, hn, hn100⟩ := clampSub_natShape b c d e
  exact ⟨n, by rw [hshape, hn], hn100⟩

/-- The engagement score is a natural number between 50 and 100. -/
theorem analyzeEngagement_score_nat (f : Features) :
    ∃ n : ℕ, (analyzeEngagement f).1 = (n : ℚ) ∧ 50 ≤ n ∧ n ≤ 100 := by
  obtain ⟨b, c, d, e, hshape⟩ :
      ∃ b c d e : ℕ, (analyzeEngagement f).1
        = min ((50 : ℚ) + (b : ℚ) + (c : ℚ) + (d : ℚ) + (e : ℚ)) 100 :=
    ⟨_, _, _, _, rfl⟩
  obtain ⟨n, hn, h50, h100⟩ := clampAdd_natShape b c d e
  exact ⟨n, by rw [hshape, hn], h50, h100⟩

/-! ### Destructuring `analyze`. -/

/-- A successful `analyze` run comes from a successful safety pass, and the
result is assembled by `buildResult`. -/
theorem analyze_ok_elim {t : List Char} {h : Bool} {m : Option String} {r : Bool}
    {res : AnalysisResult} (hok : analyze t h m r = .ok res) :
    ∃ s : ℚ × List String × List Penalty,
      analyzeSafety t (extractFeatures t h m r) = .ok s ∧
      res = buildResult (extractFeatures t h m r) s.1 s.2.1 s.2.2 := by
  rw [analyze] at hok
  split at hok
  · exact absurd hok (by simp)
  · rename_i s heq
    injection hok with h'
    exact ⟨s, heq, h'.symm⟩

/-- `buildResult` field computations (definitional). -/
theorem buildResult_fields (f : Features) (s : ℚ) (w : List String)
    (p : List Penalty) :
    (buildResult f s w p).safety_score = roundTo1 s ∧
    (buildResult f s w p).quality_score = roundTo1 (analyzeQuality f).1 ∧
    (buildResult f s w p).engagement_potential = roundTo1 (analyzeEngagement f).1 ∧
    (buildResult f s w p).overall_score
      = roundTo1 (calculateOverallScore s (analyzeQuality f).1 (analyzeEngagement f).1 f) ∧
    (buildResult f s w p).risk_level
      = determineRiskLevel (calculateOverallScore s (analyzeQuality f).1 (analyzeEngagement f).1 f) s p ∧
    (buildResult f s w p).penalties = p ++ (analyzeQuality f).2.2 ∧
    (buildResult f s w p).warnings = w ++ (analyzeQuality f).2.1 ∧
    (buildResult f s w p).boosts = (analyzeEngagement f).2 ∧
    (buildResult f s w p).feature_breakdown = f ∧
    (buildResult f s w p).recommendations
      = generateRecommendations f s (analyzeQuality f).1 (analyzeEngagement f).1 p (analyzeQuality f).2.2 := by
  refine ⟨rfl, rfl, rfl, rfl, rfl, rfl, rfl, rfl, rfl, rfl⟩

/-! ### Bounds for the aggregator. -/

/-- With the followed-account flag unset (as `extractFeatures` always leaves
it), the overall score is nonnegative and at most 85; in the short-circuit
branch it is at most 25. -/
theorem overall_bounds (s q e : ℚ) (f : Features)
    (hf : f.is_from_followed_account = false)
    (hs0 : 0 ≤ s) (hs1 : s ≤ 100) (hq0 : 0 ≤ q) (hq1 : q ≤ 100)
    (he0 : 0 ≤ e) (he1 : e ≤ 100) :
    0 ≤ calculateOverallScore s q e f ∧ calculateOverallScore s q e f ≤ 85 := by
  rw [calculateOverallScore]
  split
  · rename_i hlt
    constructor
    · nlinarith
    · nlinarith
  · rw [hf]
    norm_num
    constructor
    · nlinarith
    · nlinarith

/-! ### Congruence: which feature fields each component reads. -/

/-- `_analyze_quality` reads only length, caps ratio, newline count and
hashtag count. -/
theorem analyzeQuality_congr (f g : Features)
    (h1 : f.text_length = g.text_length) (h2 : f.caps_ratio = g.caps_ratio)
    (h3 : f.newline_count = g.newline_count)
    (h4 : f.hashtag_count = g.hashtag_count) :
    analyzeQuality f = analyzeQuality g := by
  unfold analyzeQuality
  rw [h1, h2, h3, h4]

/-- `_analyze_engagement_potential` reads only the question flag, media
flag and type, length and caps ratio. -/
theorem analyzeEngagement_congr (f g : Features)
    (h1 : f.has_question = g.has_question) (h2 : f.has_media = g.has_media)
    (h3 : f.media_type = g.media_type) (h4 : f.text_length = g.text_length)
    (h5 : f.caps_ratio = g.caps_ratio) :
    analyzeEngagement f = analyzeEngagement g := by
  unfold analyzeEngagement mediaBoostRec
  rw [h1, h2, h3, h4, h5]

/-- `_analyze_safety` reads only the suspicious-URL list from the feature
dictionary (the rest of its input is the raw text). -/
theorem analyzeSafety_congr (text : List Char) (f g : Features)
    (h1 : f.suspicious_urls = g.suspicious_urls) :
    analyzeSafety text f = analyzeSafety text g := by
  unfold analyzeSafety safetyRest urlRecord
  rw [h1]

/-- `_calculate_overall_score` reads only the followed-account flag. -/
theorem calculateOverallScore_congr (s q e : ℚ) (f g : Features)
    (h1 : f.is_from_followed_account = g.is_from_followed_account) :
    calculateOverallScore s q e f = calculateOverallScore s q e g := by
  unfold calculateOverallScore
  rw [h1]

/-- `_generate_recommendations` reads only the suspicious URLs, length,
caps ratio, hashtag count, newline count, question flag and media flag. -/
theorem generateRecommendations_congr (s q e : ℚ) (sp qp : List Penalty)
    (f g : Features)
    (h1 : f.suspicious_urls = g.suspicious_urls)
    (h2 : f.text_length = g.text_length) (h3 : f.caps_ratio = g.caps_ratio)
    (h4 : f.hashtag_count = g.hashtag_count)
    (h5 : f.newline_count = g.newline_count)
    (h6 : f.has_question = g.has_question) (h7 : f.has_media = g.has_media) :
    generateRecommendations f s q e sp qp = generateRecommendations g s q e sp qp := by
  unfold generateRecommendations
  rw [h1, h2, h3, h4, h5, h6, h7]

/-! ### Claim theorems. -/

/-- C1: the claim says no exception escapes `analyze`.  In fact, for the
input text `"kill you"` (no media, not a reply) the second toxic pattern
`\b(kill|die|death|hurt)\s+(you|yourself|them)` has two groups, so
`re.findall` returns the tuple `("kill", "you")`; building the
`HIGH_TOXICITY` penalty's `details` string then evaluates
`", ".join(set(toxic_matches[:3]))` over a set containing a tuple, which
raises `TypeError`, and the exception escapes `analyze`. -/
theorem C1_analyze_raises_on_kill_you :
    analyze ("kill you".data) false none false = .error () := by
  with_unfolding_all decide

/-- C7: `analyze` is deterministic — identical inputs produce identical
results (the embedding of the pipeline is a pure function; the source has no
mutable shared state and reads no randomness). -/
theorem C7_analyze_deterministic (t : List Char) (h : Bool) (m : Option String)
    (r : Bool) (x y : Except Unit AnalysisResult)
    (h1 : analyze t h m r = x) (h2 : analyze t h m r = y) : x = y :=
  h1.symm.trans h2

/-- C7 witness: the determinism theorem applied at a concrete input. -/
theorem C7_witness :
    analyze ("hey".data) false none false = analyze ("hey".data) false none false :=
  C7_analyze_deterministic ("hey".data) false none false _ _ rfl rfl

/-- C8: the extracted caps ratio is the uppercase-letter count divided by
the non-whitespace character count, and for text with no non-whitespace
characters (empty or all-whitespace) it is 0 — the guard `if char_count > 0`
avoids the division by zero. -/
theorem C8_caps_ratio (t : List Char) (h : Bool) (m : Option String) (r : Bool) :
    (extractFeatures t h m r).caps_ratio
      = ((t.filter pyIsUpper).length : ℚ) / ((t.filter (fun c => !pyIsSpace c)).length : ℚ) ∧
    ((∀ c ∈ t, pyIsSpace c = true) → (extractFeatures t h m r).caps_ratio = 0) := by
  constructor
  · show (if (t.filter (fun c => !pyIsSpace c)).length > 0
        then ((t.filter pyIsUpper).length : ℚ) / ((t.filter (fun c => !pyIsSpace c)).length : ℚ)
        else 0)
      = ((t.filter pyIsUpper).length : ℚ) / ((t.filter (fun c => !pyIsSpace c)).length : ℚ)
    split
    · rfl
    · rename_i hc
      have h0 : (t.filter (fun c => !pyIsSpace c)).length = 0 := by omega
      rw [h0]
      norm_num
  · intro hall
    have hnil : t.filter (fun c => !pyIsSpace c) = [] := by
      rw [List.filter_eq_nil]
      intro a ha
      simp [hall a ha]
    show (if (t.filter (fun c => !pyIsSpace c)).length > 0
        then ((t.filter pyIsUpper).length : ℚ) / ((t.filter (fun c => !pyIsSpace c)).length : ℚ)
        else 0) = 0
    rw [hnil]
    norm_num

/-- C8 witness: for the all-whitespace text `"  "` the caps ratio is 0. -/
theorem C8_witness :
    (extractFeatures ("  ".data) false none false).caps_ratio = 0 :=
  (C8_caps_ratio ("  ".data) false none false).2 (by decide)

/-- C3: whenever `analyze` returns a result, the three sub-scores and the
overall score all lie in the closed interval [0, 100]. -/
theorem C3_scores_in_range (t : List Char) (h : Bool) (m : Option String)
    (r : Bool) (res : AnalysisResult) (hok : analyze t h m r = .ok res) :
    (0 ≤ res.safety_score ∧ res.safety_score ≤ 100) ∧
    (0 ≤ res.quality_score ∧ res.quality_score ≤ 100) ∧
    (0 ≤ res.engagement_potential ∧ res.engagement_potential ≤ 100) ∧
    (0 ≤ res.overall_score ∧ res.overall_score ≤ 100) := by
  obtain ⟨s, hs, hres⟩ := analyze_ok_elim hok
  obtain ⟨ns, hns, hns100⟩ := analyzeSafety_score_nat hs
  obtain ⟨nq, hnq, hnq100⟩ := analyzeQuality_score_nat (extractFeatures t h m r)
  obtain ⟨ne, hne, hne50, hne100⟩ := analyzeEngagement_score_nat (extractFeatures t h m r)
  obtain ⟨hsf, hqf, hef, hof, _⟩ :=
    buildResult_fields (extractFeatures t h m r) s.1 s.2.1 s.2.2
  subst hres
  have hov := overall_bounds s.1 (analyzeQuality (extractFeatures t h m r)).1
    (analyzeEngagement (extractFeatures t h m r)).1 (extractFeatures t h m r) rfl
    (by rw [hns]; positivity) (by rw [hns]; exact_mod_cast hns100)
    (by rw [hnq]; positivity) (by rw [hnq]; exact_mod_cast hnq100)
    (by rw [hne]; positivity) (by rw [hne]; exact_mod_cast hne100)
  refine ⟨⟨?_, ?_⟩, ⟨?_, ?_⟩, ⟨?_, ?_⟩, ⟨?_, ?_⟩⟩
  · rw [hsf]; exact roundTo1_nonneg _
  · rw [hsf, hns, roundTo1_natCast]; exact_mod_cast hns100
  · rw [hqf]; exact roundTo1_nonneg _
  · rw [hqf, hnq, roundTo1_natCast]; exact_mod_cast hnq100
  · rw [hef]; exact roundTo1_nonneg _
  · rw [hef, hne, roundTo1_natCast]; exact_mod_cast hne100
  · rw [hof]; exact roundTo1_nonneg _
  · rw [hof]
    have h85 : calculateOverallScore s.1 (analyzeQuality (extractFeatures t h m r)).1
        (analyzeEngagement (extractFeatures t h m r)).1 (extractFeatures t h m r)
        ≤ ((100 : ℕ) : ℚ) := by
      push_cast
      linarith [hov.2]
    have := roundTo1_le_natCast hov.1 h85
    push_cast at this
    exact this

/-- C3 witness: the range theorem applied at the empty text. -/
theorem C3_witness :
    ∃ res, analyze ("".data) false none false = .ok res ∧
      ((0 ≤ res.safety_score ∧ res.safety_score ≤ 100) ∧
       (0 ≤ res.quality_score ∧ res.quality_score ≤ 100) ∧
       (0 ≤ res.engagement_potential ∧ res.engagement_potential ≤ 100) ∧
       (0 ≤ res.overall_score ∧ res.overall_score ≤ 100)) :=
  ⟨_, rfl, C3_scores_in_range ("".data) false none false _ rfl⟩

/-- C9: whenever `analyze` returns a result, its overall score is at most
85 — the weighted-average branch always multiplies by 0.85 because the
entry point never populates the followed-account feature — and in the
short-circuit branch (safety below 50) the overall score is below 25. -/
theorem C9_overall_cap (t : List Char) (h : Bool) (m : Option String)
    (r : Bool) (res : AnalysisResult) (hok : analyze t h m r = .ok res) :
    res.overall_score ≤ 85 ∧ (res.safety_score < 50 → res.overall_score < 25) := by
  obtain ⟨s, hs, hres⟩ := analyze_ok_elim hok
  obtain ⟨ns, hns, hns100⟩ := analyzeSafety_score_nat hs
  obtain ⟨nq, hnq, hnq100⟩ := analyzeQuality_score_nat (extractFeatures t h m r)
  obtain ⟨ne, hne, hne50, hne100⟩ := analyzeEngagement_score_nat (extractFeatures t h m r)
  obtain ⟨hsf, hqf, hef, hof, _⟩ :=
    buildResult_fields (extractFeatures t h m r) s.1 s.2.1 s.2.2
  subst hres
  have hov := overall_bounds s.1 (analyzeQuality (extractFeatures t h m r)).1
    (analyzeEngagement (extractFeatures t h m r)).1 (extractFeatures t h m r) rfl
    (by rw [hns]; positivity) (by rw [hns]; exact_mod_cast hns100)
    (by rw [hnq]; positivity) (by rw [hnq]; exact_mod_cast hnq100)
    (by rw [hne]; positivity) (by rw [hne]; exact_mod_cast hne100)
  constructor
  · rw [hof]
    have h85 : calculateOverallScore s.1 (analyzeQuality (extractFeatures t h m r)).1
        (analyzeEngagement (extractFeatures t h m r)).1 (extractFeatures t h m r)
        ≤ ((85 : ℕ) : ℚ) := by push_cast; linarith [hov.2]
    have := roundTo1_le_natCast hov.1 h85
    push_cast at this
    exact this
  · intro hlt
    rw [hsf, hns, roundTo1_natCast] at hlt
    have hns50 : ns < 50 := by exact_mod_cast hlt
    have hcond : s.1 < 50 := by rw [hns]; exact_mod_cast hns50
    have hbranch : calculateOverallScore s.1
        (analyzeQuality (extractFeatures t h m r)).1
        (analyzeEngagement (extractFeatures t h m r)).1 (extractFeatures t h m r)
        = s.1 * 0.5 := by
      rw [calculateOverallScore, if_pos hcond]
    have hhalf : s.1 * 0.5 = (ns : ℚ) / 2 := by rw [hns]; norm_num; ring
    rw [hof, hbranch, hhalf, roundTo1_half_natCast]
    have : (ns : ℚ) ≤ 49 := by exact_mod_cast Nat.lt_succ_iff.mp hns50
    linarith

/-- C9 witness: the cap theorem applied at a concrete input. -/
theorem C9_witness :
    ∃ res, analyze ("hi there".data) false none false = .ok res ∧
      res.overall_score ≤ 85 ∧ (res.safety_score < 50 → res.overall_score < 25) :=
  ⟨_, rfl, C9_overall_cap ("hi there".data) false none false _ rfl⟩

/-- C2 (amended): when the safety sub-score of the result is below 50, the
overall score equals safety × 0.5 exactly — the ×0.85 no-followed-account
adjustment is *not* applied in this branch, because `_calculate_overall_score`
returns before reaching it. -/
theorem C2_short_circuit_half (t : List Char) (h : Bool) (m : Option String)
    (r : Bool) (res : AnalysisResult) (hok : analyze t h m r = .ok res)
    (hlt : res.safety_score < 50) :
    res.overall_score = res.safety_score * 0.5 := by
  obtain ⟨s, hs, hres⟩ := analyze_ok_elim hok
  obtain ⟨ns, hns, hns100⟩ := analyzeSafety_score_nat hs
  obtain ⟨hsf, hqf, hef, hof, _⟩ :=
    buildResult_fields (extractFeatures t h m r) s.1 s.2.1 s.2.2
  subst hres
  rw [hsf, hns, roundTo1_natCast] at hlt
  have hns50 : ns < 50 := by exact_mod_cast hlt
  have hcond : s.1 < 50 := by rw [hns]; exact_mod_cast hns50
  have hbranch : calculateOverallScore s.1
      (analyzeQuality (extractFeatures t h m r)).1
      (analyzeEngagement (extractFeatures t h m r)).1 (extractFeatures t h m r)
      = s.1 * 0.5 := by
    rw [calculateOverallScore, if_pos hcond]
  have hhalf : s.1 * 0.5 = (ns : ℚ) / 2 := by rw [hns]; norm_num; try ring
  rw [hof, hbranch, hhalf, roundTo1_half_natCast, hsf, hns, roundTo1_natCast]
  norm_num
  try ring

/-- C2 counterexample: for the text `"hate hate hate hate"` the safety
score is 40 (below 50) and the overall score is 20 = 40 × 0.5, not
40 × 0.5 × 0.85 = 17 — the claimed ×0.85 factor is absent in the
short-circuit branch. -/
theorem C2_counterexample :
    (analyze ("hate hate hate hate".data) false none false).map
      (fun r => (r.safety_score, r.overall_score)) = .ok (40, 20) ∧
    (40 : ℚ) < 50 ∧ ¬ ((20 : ℚ) = roundTo1 ((40 : ℚ) * 0.5 * 0.85)) := by
  refine ⟨?_, by norm_num, ?_⟩
  · with_unfolding_all decide
  · with_unfolding_all decide

/-- C2 witness: the amended short-circuit equation at a concrete input with
safety 40. -/
theorem C2_witness :
    ∃ res, analyze ("hate hate hate hate".data) false none false = .ok res ∧
      res.overall_score = res.safety_score * 0.5 :=
  ⟨_, rfl, C2_short_circuit_half ("hate hate hate hate".data) false none false _ rfl
    (by with_unfolding_all decide)⟩

/-- C4: whenever `analyze` returns a result, if the safety scorer emitted a
penalty with severity CRITICAL the risk level is CRITICAL regardless of the
overall score; otherwise the risk level follows the aggregator's overall
score: below 40 HIGH, below 60 MEDIUM, otherwise LOW. -/
theorem C4_risk_level_rule (t : List Char) (h : Bool) (m : Option String)
    (r : Bool) (sOut : ℚ × List String × List Penalty) (res : AnalysisResult)
    (hs : analyzeSafety t (extractFeatures t h m r) = .ok sOut)
    (hok : analyze t h m r = .ok res) :
    (sOut.2.2.any (fun p => p.severity == "CRITICAL") = true →
      res.risk_level = "CRITICAL") ∧
    (sOut.2.2.any (fun p => p.severity == "CRITICAL") = false →
      res.risk_level =
        (if calculateOverallScore sOut.1 (analyzeQuality (extractFeatures t h m r)).1
            (analyzeEngagement (extractFeatures t h m r)).1 (extractFeatures t h m r) < 40
         then "HIGH"
         else if calculateOverallScore sOut.1 (analyzeQuality (extractFeatures t h m r)).1
            (analyzeEngagement (extractFeatures t h m r)).1 (extractFeatures t h m r) < 60
         then "MEDIUM" else "LOW")) := by
  obtain ⟨s, hs', hres⟩ := analyze_ok_elim hok
  rw [hs'] at hs
  injection hs with hss
  subst hss
  subst hres
  have hrl : (buildResult (extractFeatures t h m r) s.1 s.2.1 s.2.2).risk_level
      = determineRiskLevel
        (calculateOverallScore s.1 (analyzeQuality (extractFeatures t h m r)).1
          (analyzeEngagement (extractFeatures t h m r)).1 (extractFeatures t h m r))
        s.1 s.2.2 := rfl
  constructor
  · intro hcrit
    rw [hrl, determineRiskLevel, if_pos hcrit]
  · intro hncrit
    rw [hrl, determineRiskLevel, if_neg (by rw [hncrit]; exact Bool.false_ne_true)]

/-- C4 witness: the text `"porn"` produces an NSFW penalty with severity
CRITICAL, and the risk level is CRITICAL. -/
theorem C4_witness :
    ∃ res, analyze ("porn".data) false none false = .ok res ∧
      res.risk_level = "CRITICAL" :=
  ⟨_, rfl,
    (C4_risk_level_rule ("porn".data) false none false _ _ rfl rfl).1
      (by with_unfolding_all decide)⟩

/-- C5 counterexample: for the text `"ok"` (no media, not a reply) the
engagement score is 55, not the claimed baseline 50 (the caps ratio 0 ≤ 0.1
fires the +5 GOOD_FORMATTING boost, so the boost list is not empty), and
the risk level is LOW, which the claim says can never happen. -/
theorem C5_counterexample :
    ∃ res, analyze ("ok".data) false none false = .ok res ∧
      ¬ (res.engagement_potential = 50 ∧ res.boosts = [] ∧ res.risk_level ≠ "LOW") := by
  refine ⟨_, rfl, ?_⟩
  with_unfolding_all decide

/-- C5 (amended): for the text `"ok"` the TOO_SHORT quality penalty of 30
fires; the engagement score is 55 — the baseline 50 plus the +5
GOOD_FORMATTING boost, which is the only boost — and the risk level is LOW
(the overall score is 65.9). -/
theorem C5_ok_scenario :
    ∃ res, analyze ("ok".data) false none false = .ok res ∧
      (∃ p ∈ res.penalties, p.type = "TOO_SHORT" ∧ p.severity = "MEDIUM" ∧
        p.impact = "-30%") ∧
      res.engagement_potential = 55 ∧
      res.boosts.map (fun b => b.type) = ["GOOD_FORMATTING"] ∧
      res.risk_level = "LOW" ∧ res.overall_score = 65.9 := by
  refine ⟨_, rfl, ?_, ?_, ?_, ?_, ?_⟩ <;> with_unfolding_all decide

/-- The URL check of `_analyze_safety` appends the `UNTRUSTED_URL` record
and its warning whenever the suspicious-URL list is nonempty. -/
theorem safetyRest_url_mem (text : List Char) (f : Features) (s1 : ℚ)
    (w1 : List String) (p1 : List Penalty)
    (hne : f.suspicious_urls.isEmpty = false) :
    urlRecord f ∈ (safetyRest text f s1 w1 p1).2.2 ∧
    urlWarning ∈ (safetyRest text f s1 w1 p1).2.1 := by
  unfold safetyRest
  constructor <;> simp [hne]

/-- Lifting `safetyRest_url_mem` through `_analyze_safety`. -/
theorem analyzeSafety_url_mem {text : List Char} {f : Features}
    {sOut : ℚ × List String × List Penalty}
    (h : analyzeSafety text f = .ok sOut)
    (hne : f.suspicious_urls.isEmpty = false) :
    urlRecord f ∈ sOut.2.2 ∧ urlWarning ∈ sOut.2.1 := by
  rw [analyzeSafety] at h
  split at h
  · injection h with h'
    rw [← h']
    exact safetyRest_url_mem _ _ _ _ _ hne
  · split at h
    · exact absurd h (by simp)
    · injection h with h'
      rw [← h']
      exact safetyRest_url_mem _ _ _ _ _ hne

/-- C6 (amended): the URL extractor requires an explicit `http://` or
`https://` scheme, so the claim's URL must be read as
`http://bit.ly/123abc`.  Whenever that URL is among the extracted URLs of a
call on which `analyze` returns, it is placed in `suspicious_urls` (its
domain `bit.ly` is a suspicious domain), and the safety scorer applies the
`UNTRUSTED_URL` penalty of exactly 40 with severity HIGH and emits the
associated warning string. -/
theorem C6_suspicious_url_rule (t : List Char) (h : Bool) (m : Option String)
    (r : Bool) (res : AnalysisResult) (hok : analyze t h m r = .ok res)
    (hmem : "http://bit.ly/123abc" ∈ (extractFeatures t h m r).urls) :
    "http://bit.ly/123abc" ∈ res.feature_breakdown.suspicious_urls ∧
    (∃ p ∈ res.penalties, p.type = "UNTRUSTED_URL" ∧ p.severity = "HIGH" ∧
      p.impact = "-40%") ∧
    urlWarning ∈ res.warnings := by
  obtain ⟨s, hs, hres⟩ := analyze_ok_elim hok
  have hfilter : (extractFeatures t h m r).suspicious_urls
      = (extractFeatures t h m r).urls.filter isSuspiciousUrl := rfl
  have hsusp : "http://bit.ly/123abc" ∈ (extractFeatures t h m r).suspicious_urls := by
    rw [hfilter]
    exact List.mem_filter.mpr ⟨hmem, by with_unfolding_all decide⟩
  have hne : (extractFeatures t h m r).suspicious_urls.isEmpty = false := by
    rcases hlist : (extractFeatures t h m r).suspicious_urls with _ | ⟨a, l⟩
    · rw [hlist] at hsusp
      cases hsusp
    · rfl
  obtain ⟨hpen, hwarn⟩ := analyzeSafety_url_mem hs hne
  subst hres
  refine ⟨hsusp, ⟨urlRecord (extractFeatures t h m r), ?_, rfl, rfl, rfl⟩, ?_⟩
  · show urlRecord (extractFeatures t h m r)
      ∈ s.2.2 ++ (analyzeQuality (extractFeatures t h m r)).2.2
    exact List.mem_append_left _ hpen
  · show urlWarning ∈ s.2.1 ++ (analyzeQuality (extractFeatures t h m r)).2.1
    exact List.mem_append_left _ hwarn

/-- C6 counterexample: the spec's own scenario text `"bit.ly/123abc"`
contains `bit.ly/123abc` literally, yet the extractor (whose pattern
requires a scheme) extracts no URL at all, `suspicious_urls` stays empty,
the safety score stays 100 and no `UNTRUSTED_URL` penalty is applied. -/
theorem C6_counterexample :
    containsSub ("bit.ly/123abc".data) ("bit.ly/123abc".data) = true ∧
    (extractFeatures ("bit.ly/123abc".data) false none false).urls = [] ∧
    (extractFeatures ("bit.ly/123abc".data) false none false).suspicious_urls = [] ∧
    (analyze ("bit.ly/123abc".data) false none false).map
      (fun r => (r.safety_score,
        r.penalties.any (fun p => p.type == "UNTRUSTED_URL"))) = .ok (100, false) := by
  refine ⟨?_, ?_, ?_, ?_⟩ <;> with_unfolding_all decide

/-- C6 witness: a text in which the extractor does find
`http://bit.ly/123abc`. -/
theorem C6_witness :
    ∃ res, analyze ("see http://bit.ly/123abc now".data) false none false = .ok res ∧
      "http://bit.ly/123abc" ∈ res.feature_breakdown.suspicious_urls ∧
      (∃ p ∈ res.penalties, p.type = "UNTRUSTED_URL" ∧ p.severity = "HIGH" ∧
        p.impact = "-40%") ∧
      urlWarning ∈ res.warnings :=
  ⟨_, rfl,
    C6_suspicious_url_rule ("see http://bit.ly/123abc now".data) false none false _ rfl
      (by with_unfolding_all decide)⟩

/-- C10 counterexample: the texts `"@hate"` and `"@abcd"` differ only in
their single `@handle` mention — every other extracted feature is equal
(both are 5 lowercase non-space characters with one mention) — yet the two
overall scores differ (60.8 vs 65.9), because the safety detectors scan the
raw text and `"@hate"` matches the toxic word pattern. -/
theorem C10_counterexample :
    ({ extractFeatures ("@hate".data) false none false with mentions := [] }
      = { extractFeatures ("@abcd".data) false none false with mentions := [] }) ∧
    (extractFeatures ("@hate".data) false none false).mentions
      ≠ (extractFeatures ("@abcd".data) false none false).mentions ∧
    (analyze ("@hate".data) false none false).map (fun r => r.overall_score)
      ≠ (analyze ("@abcd".data) false none false).map (fun r => r.overall_score) := by
  refine ⟨?_, ?_, ?_⟩ <;> with_unfolding_all decide

/-- C10 (amended): the `is_reply` flag has no effect on any score, penalty,
boost, warning or recommendation — it is recorded only in the
`feature_breakdown` — and no scorer reads the `mentions` or `mention_count`
features.  (Texts that differ in their mentions can still score
differently, because the safety detectors scan the raw text; see the
counterexample.) -/
theorem C10_reply_and_mentions_inert :
    (∀ (t : List Char) (h : Bool) (m : Option String),
      (analyze t h m true).map resultCore = (analyze t h m false).map resultCore ∧
      extractFeatures t h m true
        = { extractFeatures t h m false with is_reply := true }) ∧
    (∀ (text : List Char) (f : Features) (ms : List String) (n : ℕ),
      analyzeSafety text { f with mentions := ms, mention_count := n }
        = analyzeSafety text f ∧
      analyzeQuality { f with mentions := ms, mention_count := n } = analyzeQuality f ∧
      analyzeEngagement { f with mentions := ms, mention_count := n }
        = analyzeEngagement f ∧
      (∀ (s q e : ℚ) (sp qp : List Penalty),
        generateRecommendations { f with mentions := ms, mention_count := n } s q e sp qp
          = generateRecommendations f s q e sp qp) ∧
      (∀ (s q e : ℚ),
        calculateOverallScore s q e { f with mentions := ms, mention_count := n }
          = calculateOverallScore s q e f)) := by
  constructor
  · intro t h m
    have hq : analyzeQuality (extractFeatures t h m true)
        = analyzeQuality (extractFeatures t h m false) :=
      analyzeQuality_congr _ _ rfl rfl rfl rfl
    have he : analyzeEngagement (extractFeatures t h m true)
        = analyzeEngagement (extractFeatures t h m false) :=
      analyzeEngagement_congr _ _ rfl rfl rfl rfl rfl
    have hsafe : analyzeSafety t (extractFeatures t h m true)
        = analyzeSafety t (extractFeatures t h m false) :=
      analyzeSafety_congr t _ _ rfl
    refine ⟨?_, rfl⟩
    rw [analyze, analyze, hsafe]
    cases hx : analyzeSafety t (extractFeatures t h m false) with
    | error e => rfl
    | ok s =>
      have ho : ∀ (a b c : ℚ),
          calculateOverallScore a b c (extractFeatures t h m true)
            = calculateOverallScore a b c (extractFeatures t h m false) :=
        fun a b c => calculateOverallScore_congr a b c _ _ rfl
      have hr : ∀ (a b c : ℚ) (sp qp : List Penalty),
          generateRecommendations (extractFeatures t h m true) a b c sp qp
            = generateRecommendations (extractFeatures t h m false) a b c sp qp :=
        fun a b c sp qp => generateRecommendations_congr a b c sp qp _ _
          rfl rfl rfl rfl rfl rfl rfl
      simp only [Except.map]
      unfold resultCore buildResult
      simp only [hq, he, ho, hr]
  · intro text f ms n
    refine ⟨analyzeSafety_congr text _ _ rfl,
      analyzeQuality_congr _ _ rfl rfl rfl rfl,
      analyzeEngagement_congr _ _ rfl rfl rfl rfl rfl,
      fun s q e sp qp => generateRecommendations_congr s q e sp qp _ _
        rfl rfl rfl rfl rfl rfl rfl,
      fun s q e => calculateOverallScore_congr s q e _ _ rfl⟩
